import Mathlib

/-!
Verification of the FindMentor query classification and resolution pipeline.

The classifier `classifyMathQuestion` is embedded from `src/backend/server.js`
(the exported function at the end of that file).  JavaScript semantics are
mirrored as follows:

* `String.prototype.includes` is bare substring containment (`strIncludes`);
* `String.prototype.toLowerCase` is per-character ASCII lowercasing
  (`strToLower`); the keywords and rule triggers it is compared against are
  all ASCII (plus the integral sign, which is case-stable), so ASCII
  lowercasing is observationally faithful here;
* the regex `[\d+\-*/=()²³√∫∑]` (test) is "some character of the class
  occurs" (`hasMathExpressionB`);
* the regex `[a-z]\s*[=+\-*/]|[=+\-*/]\s*[a-z]|\b(x|y|z|a|b|c|n|m|t)\b` with
  the `i` flag is `hasVariablesB`, built from the three alternatives:
  a letter followed by optional whitespace and an operator, an operator
  followed by optional whitespace and a letter, and a listed single letter
  delimited by word boundaries (`\w` = ASCII letter, digit or underscore,
  as in JavaScript).
-/

/-- Substring containment on char lists: some suffix of `hay` starts with
`pat`.  Mirrors JavaScript `hay.includes(pat)` (empty pattern matches). -/
def listIncludes (hay pat : List Char) : Bool :=
  match hay with
  | [] => pat.isEmpty
  | _ :: rest => pat.isPrefixOf hay || listIncludes rest pat

/-- JavaScript `s.includes(pat)`. -/
def strIncludes (s pat : String) : Bool :=
  listIncludes s.toList pat.toList

/-- JavaScript `s.toLowerCase()`, ASCII fragment. -/
def strToLower (s : String) : String :=
  String.mk (s.toList.map Char.toLower)

/-- The `mathKeywords` array of `classifyMathQuestion`, in source order. -/
def mathKeywords : List String :=
  ["solve", "calculate", "find", "compute", "evaluate", "simplify",
   "equation", "inequality", "derivative", "integral", "limit", "matrix",
   "polynomial", "quadratic", "linear", "trigonometry", "geometry",
   "algebra", "calculus", "statistics", "probability", "fraction",
   "percentage", "ratio", "proportion", "area", "volume", "perimeter",
   "angle", "triangle", "circle", "square", "rectangle", "graph",
   "function", "logarithm", "exponential", "sin", "cos", "tan"]

/-- The `mathSymbols` array of `classifyMathQuestion`, in source order. -/
def mathSymbols : List String :=
  ["+", "-", "*", "/", "=", "≠", "<", ">", "≤", "≥", "√", "²", "³",
   "∫", "∑", "π", "∞", "θ", "α", "β", "γ", "Δ", "∂", "∇"]

/-- Characters of the regex class `[\d+\-*/=()²³√∫∑]`. -/
def mathExprChars : List Char :=
  ['0', '1', '2', '3', '4', '5', '6', '7', '8', '9',
   '+', '-', '*', '/', '=', '(', ')', '²', '³', '√', '∫', '∑']

/-- Operator characters of the variable-detection regex, `[=+\-*/]`. -/
def isOpChar (c : Char) : Bool :=
  c = '=' || c = '+' || c = '-' || c = '*' || c = '/'

/-- JavaScript regex `\s`. -/
def isJsWhitespace (c : Char) : Bool :=
  c = ' ' || c = '\t' || c = '\n' || c.toNat = 0x0b || c.toNat = 0x0c ||
  c = '\r' || c.toNat = 0xa0 || c.toNat = 0x1680 ||
  (0x2000 ≤ c.toNat && c.toNat ≤ 0x200a) ||
  c.toNat = 0x2028 || c.toNat = 0x2029 || c.toNat = 0x202f ||
  c.toNat = 0x205f || c.toNat = 0x3000 || c.toNat = 0xfeff

/-- JavaScript regex `\w`: ASCII letter, digit or underscore. -/
def isWordChar (c : Char) : Bool :=
  c.isAlpha || c.isDigit || c = '_'

/-- Match of `[a-z]\s*[=+\-*/]` (with flag `i`) at the head of the list. -/
def matchLetterOp (l : List Char) : Bool :=
  match l with
  | [] => false
  | c :: rest =>
    c.isAlpha &&
      (match rest.dropWhile isJsWhitespace with
       | [] => false
       | d :: _ => isOpChar d)

/-- Match of `[=+\-*/]\s*[a-z]` (with flag `i`) at the head of the list. -/
def matchOpLetter (l : List Char) : Bool :=
  match l with
  | [] => false
  | c :: rest =>
    isOpChar c &&
      (match rest.dropWhile isJsWhitespace with
       | [] => false
       | d :: _ => d.isAlpha)

/-- Does `p` match at the head of some suffix of `l`? -/
def anySuffix (p : List Char → Bool) (l : List Char) : Bool :=
  p l ||
    match l with
    | [] => false
    | _ :: rest => anySuffix p rest

/-- Match of `\b(x|y|z|a|b|c|n|m|t)\b` (with flag `i`) somewhere in the
list; `prev` is the character just before the current position. -/
def hasBoundaryVar (prev : Option Char) (l : List Char) : Bool :=
  match l with
  | [] => false
  | c :: rest =>
    (['x', 'y', 'z', 'a', 'b', 'c', 'n', 'm', 't'].contains c.toLower &&
      (match prev with
       | none => true
       | some p => !isWordChar p) &&
      (match rest with
       | [] => true
       | d :: _ => !isWordChar d)) ||
    hasBoundaryVar (some c) rest

/-- The `hasMathKeyword` constant of `classifyMathQuestion`: some keyword
occurs in the lowercased question. -/
def hasMathKeywordB (question : String) : Bool :=
  mathKeywords.any (fun keyword => strIncludes (strToLower question) keyword)

/-- The `hasMathSymbol` constant: some listed symbol occurs in the raw
question. -/
def hasMathSymbolB (question : String) : Bool :=
  mathSymbols.any (fun symbol => strIncludes question symbol)

/-- The `hasMathExpression` constant: `[\d+\-*/=()²³√∫∑]` tests true. -/
def hasMathExpressionB (question : String) : Bool :=
  question.toList.any (fun c => mathExprChars.contains c)

/-- The `hasVariables` constant: the variable-detection regex tests true. -/
def hasVariablesB (question : String) : Bool :=
  anySuffix matchLetterOp question.toList ||
  anySuffix matchOpLetter question.toList ||
  hasBoundaryVar none question.toList

/-- The condition of the outer `if` of `classifyMathQuestion` ("is this
math at all"). -/
def mathGate (question : String) : Bool :=
  hasMathKeywordB question || hasMathSymbolB question ||
    (hasMathExpressionB question && hasVariablesB question)

/-- Tag chosen by the nested sub-domain conditionals of
`classifyMathQuestion`, applied to the lowercased question `q`. -/
def subDomainTag (q : String) : String :=
  if strIncludes q "∫" || strIncludes q "integrate" ||
      strIncludes q "integration" then "integrals"
  else if strIncludes q "derivative" || strIncludes q "differentiate" ||
      strIncludes q "d/dx" then "calculus"
  else if strIncludes q "matrix" || strIncludes q "determinant" then
    "linear_algebra"
  else if strIncludes q "trig" || strIncludes q "sin" ||
      strIncludes q "cos" || strIncludes q "tan" then "trigonometry"
  else if strIncludes q "geometry" || strIncludes q "area" ||
      strIncludes q "volume" || strIncludes q "perimeter" then "geometry"
  else if strIncludes q "probability" || strIncludes q "statistics" then
    "statistics"
  else "math"

/-- Embedding of `classifyMathQuestion` from `src/backend/server.js`
(`q` is `question.toLowerCase()`). -/
def classifyMathQuestion (question : String) : String :=
  if mathGate question then subDomainTag (strToLower question)
  else "unknown"

/-- The spec's design note renders the sub-domain rules of
`classifyMathQuestion` as an ordered list of (predicate, tag) pairs,
evaluated top to bottom; this definition follows the spec's words and is
compared against the source's nested conditionals. -/
def priorityRules : List ((String → Bool) × String) :=
  [(fun q => strIncludes q "∫" || strIncludes q "integrate" ||
      strIncludes q "integration", "integrals"),
   (fun q => strIncludes q "derivative" || strIncludes q "differentiate" ||
      strIncludes q "d/dx", "calculus"),
   (fun q => strIncludes q "matrix" || strIncludes q "determinant",
      "linear_algebra"),
   (fun q => strIncludes q "trig" || strIncludes q "sin" ||
      strIncludes q "cos" || strIncludes q "tan", "trigonometry"),
   (fun q => strIncludes q "geometry" || strIncludes q "area" ||
      strIncludes q "volume" || strIncludes q "perimeter", "geometry"),
   (fun q => strIncludes q "probability" || strIncludes q "statistics",
      "statistics")]

/-- Tag of the first matching rule of `priorityRules` over the lowercased
question, with `"math"` as the fall-through. -/
def firstRuleTag (q : String) : String :=
  match priorityRules.find? (fun r => r.1 q) with
  | some r => r.2
  | none => "math"

/-- The `ResolvedAnswer` shape of the spec's data model. -/
structure ResolvedAnswer where
  success : Bool
  answerText : String
  domainTag : String
  error : Option String
deriving DecidableEq

/-- The `ReferenceEntry` shape of the spec's data model. -/
structure ReferenceEntry where
  question : String
  answer : String
deriving DecidableEq

/-- Which pipeline stages a call to the resolver actually ran; model
instrumentation used to state "without invoking X" properties. -/
structure ResolveTrace where
  classified : Bool
  lookedUp : Bool
  generated : Bool
deriving DecidableEq

/-- ASCII/whitespace trim of a string, used by the resolver model's
validation step. -/
def strTrim (s : String) : String :=
  String.mk
    (((s.toList.dropWhile Char.isWhitespace).reverse.dropWhile
        Char.isWhitespace).reverse)

/-- Modelled from the spec: `lookupReference` stands in for the Knowledge
Lookup of `queryResolver.js`, which is not under `src/`; the spec fixes
exact normalized-string matching as the minimum bar ("Performs
similarity/exact matching of `rawText` against the preloaded reference
set … Returns the first qualifying match or none"). -/
def lookupReference (dataset : List ReferenceEntry) (rawText : String) :
    Option ReferenceEntry :=
  dataset.find?
    (fun e => strToLower (strTrim e.question) == strToLower (strTrim rawText))

/-- Modelled from the spec: `resolveQuery` of `queryResolver.js` is not
under `src/`.  The spec's orchestrator state machine is followed:
validate (empty or whitespace-only input fails immediately — "For all
empty or whitespace-only input, `resolve` returns `success:false` without
invoking the generation backend"), classify, lookup (short-circuit on a
match), generate; a `GenerationError` is converted into
`success := false` with the error message, never thrown.  The single
generation-backend call's outcome is abstracted as `backend`; the
returned `ResolveTrace` records which stages ran. -/
def resolveQuery (rawText : String) (_auxContext : Option String)
    (dataset : List ReferenceEntry) (backend : Except String String) :
    ResolvedAnswer × ResolveTrace :=
  if strTrim rawText = "" then
    ({ success := false, answerText := "", domainTag := "unknown",
       error := some "empty input" },
     { classified := false, lookedUp := false, generated := false })
  else
    let tag := classifyMathQuestion rawText
    match lookupReference dataset rawText with
    | some entry =>
      ({ success := true, answerText := entry.answer, domainTag := tag,
         error := none },
       { classified := true, lookedUp := true, generated := false })
    | none =>
      match backend with
      | Except.ok text =>
        ({ success := true, answerText := text, domainTag := tag,
           error := none },
         { classified := true, lookedUp := true, generated := true })
      | Except.error msg =>
        ({ success := false, answerText := "", domainTag := tag,
           error := some msg },
         { classified := true, lookedUp := true, generated := true })

/-- An HTTP response of the `/ask` family of handlers: status code plus
the serialized `ResolvedAnswer`-shaped body. -/
structure AskResponse where
  status : Nat
  body : ResolvedAnswer
deriving DecidableEq

/-- Embedding of the `/ask` handler of `src/backend/server.js`: a missing
or empty (falsy) `question` is answered with status 400 and
`success:false` before the resolver runs; otherwise the request is handed
to `resolveQuery`.  `auxContext` is not supplied by this handler; the
`language` option does not affect the modelled behavior. -/
def askHandler (question : Option String) (dataset : List ReferenceEntry)
    (backend : Except String String) : AskResponse × ResolveTrace :=
  match question with
  | none =>
    ({ status := 400,
       body := { success := false, answerText := "", domainTag := "",
                 error := some "Question is required" } },
     { classified := false, lookedUp := false, generated := false })
  | some s =>
    if s = "" then
      ({ status := 400,
         body := { success := false, answerText := "", domainTag := "",
                   error := some "Question is required" } },
       { classified := false, lookedUp := false, generated := false })
    else
      let r := resolveQuery s none dataset backend
      ({ status := 200, body := r.1 }, r.2)

/-- Result of the OCR extraction collaborator, as consumed by the
`/ask/image` handler. -/
structure OcrResult where
  success : Bool
  text : String
  error : Option String
deriving DecidableEq

/-- The provenance annotation the `/ask/image` handler prepends to the
extracted text when building the `context` option for `resolveQuery`. -/
def imageProvenancePrefix : String :=
  "This question was extracted from an image. Original extracted text: "

/-- Embedding of the `/ask/image` handler of `src/backend/server.js` from
the point where the OCR result is available: a failed extraction is
answered with status 400; a successful one hands the extracted text to
`resolveQuery` with the provenance-annotated context option.  The second
component records the `context` string handed to the resolver (`none`
when the resolver is not invoked). -/
def askImageHandler (ocr : OcrResult) (dataset : List ReferenceEntry)
    (backend : Except String String) : AskResponse × Option String :=
  if ocr.success = false then
    ({ status := 400,
       body := { success := false, answerText := "", domainTag := "",
                 error := some (match ocr.error with
                   | some e =>
                     if e = "" then "Failed to process image" else e
                   | none => "Failed to process image") } },
     none)
  else
    let extractedText := ocr.text
    let ctx := imageProvenancePrefix ++ extractedText
    let r := resolveQuery extractedText (some ctx) dataset backend
    ({ status := 200, body := r.1 }, some ctx)

theorem isPrefixOf_self (l : List Char) : l.isPrefixOf l = true := by
  induction l with
  | nil => rfl
  | cons c cs ih => simp [List.isPrefixOf, ih]

theorem listIncludes_append_self (l₁ l₂ : List Char) :
    listIncludes (l₁ ++ l₂) l₂ = true := by
  induction l₁ with
  | nil =>
    cases l₂ with
    | nil => rfl
    | cons c cs => simp [listIncludes, isPrefixOf_self]
  | cons c cs ih => simp [listIncludes, ih]

theorem strIncludes_append_right (a b : String) :
    strIncludes (a ++ b) b = true := by
  simp [strIncludes, String.toList, String.data_append, listIncludes_append_self]

theorem hasMathKeywordB_of_incl (s k : String) (hk : k ∈ mathKeywords)
    (h : strIncludes (strToLower s) k = true) : hasMathKeywordB s = true := by
  unfold hasMathKeywordB
  exact List.any_eq_true.mpr ⟨k, hk, h⟩

theorem hasMathSymbolB_of_incl (s sym : String) (hk : sym ∈ mathSymbols)
    (h : strIncludes s sym = true) : hasMathSymbolB s = true := by
  unfold hasMathSymbolB
  exact List.any_eq_true.mpr ⟨sym, hk, h⟩

theorem mathGate_of_keyword (s k : String) (hk : k ∈ mathKeywords)
    (h : strIncludes (strToLower s) k = true) : mathGate s = true := by
  simp [mathGate, hasMathKeywordB_of_incl s k hk h]

theorem subDomainTag_ne_unknown (q : String) : subDomainTag q ≠ "unknown" := by
  unfold subDomainTag
  repeat' split
  all_goals decide

theorem classify_ne_unknown_of_gate (s : String) (h : mathGate s = true) :
    classifyMathQuestion s ≠ "unknown" := by
  unfold classifyMathQuestion
  simp only [h, if_true]
  exact subDomainTag_ne_unknown (strToLower s)

/-- C5: `classifyMathQuestion "what is the capital of France?"` returns
`"unknown"`: the input contains no math keyword as a substring, no listed
math symbol, and fails the expression-plus-variable heuristic. -/
theorem classify_capital_of_france :
    classifyMathQuestion "what is the capital of France?" = "unknown" ∧
    hasMathKeywordB "what is the capital of France?" = false ∧
    hasMathSymbolB "what is the capital of France?" = false ∧
    (hasMathExpressionB "what is the capital of France?" &&
      hasVariablesB "what is the capital of France?") = false := by
  refine ⟨by decide, by decide, by decide, by decide⟩

/-- C6: `classifyMathQuestion` is a total function over strings (a Lean
`def`, total by construction) that returns `"unknown"` exactly when no
math keyword occurs, no math symbol occurs, and the
expression-and-variable condition fails (that is, when `mathGate` is
false); in particular it returns `"unknown"` on the empty string. -/
theorem classify_total_unknown_iff :
    (∀ s : String,
      classifyMathQuestion s = "unknown" ↔ mathGate s = false) ∧
    classifyMathQuestion "" = "unknown" := by
  constructor
  · intro s
    constructor
    · intro h
      cases hg : mathGate s with
      | false => rfl
      | true => exact absurd h (classify_ne_unknown_of_gate s hg)
    · intro h
      unfold classifyMathQuestion
      simp [h]
  · decide

/-- C9: for every input string, `classifyMathQuestion` returns one of
exactly eight tags — `"integrals"`, `"calculus"`, `"linear_algebra"`,
`"trigonometry"`, `"geometry"`, `"statistics"`, `"math"`, `"unknown"` —
and never the `"general"` tag. -/
theorem classify_range (s : String) :
    (classifyMathQuestion s = "integrals" ∨
     classifyMathQuestion s = "calculus" ∨
     classifyMathQuestion s = "linear_algebra" ∨
     classifyMathQuestion s = "trigonometry" ∨
     classifyMathQuestion s = "geometry" ∨
     classifyMathQuestion s = "statistics" ∨
     classifyMathQuestion s = "math" ∨
     classifyMathQuestion s = "unknown") ∧
    classifyMathQuestion s ≠ "general" := by
  unfold classifyMathQuestion subDomainTag
  repeat' split
  all_goals decide

/-- C8: every string whose lowercased form contains `"sin"` — including
inside ordinary words such as `"business"` — and contains none of the
trigger substrings of the three higher-priority rules is classified
`"trigonometry"`, because keyword matching is bare substring
containment. -/
theorem classify_sin_substring (s : String)
    (hsin : strIncludes (strToLower s) "sin" = true)
    (h1 : strIncludes (strToLower s) "∫" = false)
    (h2 : strIncludes (strToLower s) "integrate" = false)
    (h3 : strIncludes (strToLower s) "integration" = false)
    (h4 : strIncludes (strToLower s) "derivative" = false)
    (h5 : strIncludes (strToLower s) "differentiate" = false)
    (h6 : strIncludes (strToLower s) "d/dx" = false)
    (h7 : strIncludes (strToLower s) "matrix" = false)
    (h8 : strIncludes (strToLower s) "determinant" = false) :
    classifyMathQuestion s = "trigonometry" := by
  have hg : mathGate s = true :=
    mathGate_of_keyword s "sin" (by decide) hsin
  unfold classifyMathQuestion subDomainTag
  simp [hg, h1, h2, h3, h4, h5, h6, h7, h8, hsin]

theorem classify_sin_substring_app :
    classifyMathQuestion "business" = "trigonometry" :=
  classify_sin_substring "business" (by decide) (by decide) (by decide)
    (by decide) (by decide) (by decide) (by decide) (by decide) (by decide)

/-- C10: every string containing the character `"-"` passes the math gate
through the fixed math-symbol list checked against the raw input, so
`classifyMathQuestion` never returns `"unknown"` on it; an ordinary
hyphenated phrase with no sub-domain trigger falls through to `"math"`. -/
theorem classify_hyphen_not_unknown :
    (∀ s : String, strIncludes s "-" = true →
      classifyMathQuestion s ≠ "unknown") ∧
    classifyMathQuestion "well-known" = "math" := by
  constructor
  · intro s h
    have hg : mathGate s = true := by
      simp [mathGate, hasMathSymbolB_of_incl s "-" (by decide) h]
    exact classify_ne_unknown_of_gate s hg
  · decide

theorem classify_hyphen_not_unknown_app :
    classifyMathQuestion "well-known" ≠ "unknown" :=
  classify_hyphen_not_unknown.1 "well-known" (by decide)

/-- C1 counterexample: `"the integral"` contains the math keyword
`"integral"` (so it passes the gate) and contains no keyword of any
higher-priority rule, yet `classifyMathQuestion` returns `"math"`, not
`"integrals"`: the keyword `"integral"` is not among rule 1's triggers
(`"∫"`, `"integrate"`, `"integration"`). -/
theorem classify_integral_only_is_math :
    strIncludes (strToLower "the integral") "integral" = true ∧
    hasMathKeywordB "the integral" = true ∧
    strIncludes (strToLower "the integral") "∫" = false ∧
    strIncludes (strToLower "the integral") "integrate" = false ∧
    strIncludes (strToLower "the integral") "integration" = false ∧
    classifyMathQuestion "the integral" = "math" ∧
    ¬ classifyMathQuestion "the integral" = "integrals" := by
  decide

/-- C1 (amended): for every input whose lowercased text contains a rule
trigger such as `"derivative"` and none of rule 1's triggers,
`classifyMathQuestion` returns that rule's tag (`"calculus"`), and in
particular `classifyMathQuestion "find the derivative of x^2" =
"calculus"`; but the keyword `"integral"` is not a rule trigger: an input
containing `"integral"` and none of the sub-domain triggers of rules 1–6
is tagged `"math"`, not `"integrals"`. -/
theorem classify_rule_keywords :
    (∀ s : String,
      strIncludes (strToLower s) "derivative" = true →
      strIncludes (strToLower s) "∫" = false →
      strIncludes (strToLower s) "integrate" = false →
      strIncludes (strToLower s) "integration" = false →
      classifyMathQuestion s = "calculus") ∧
    classifyMathQuestion "find the derivative of x^2" = "calculus" ∧
    (∀ s : String,
      strIncludes (strToLower s) "integral" = true →
      strIncludes (strToLower s) "∫" = false →
      strIncludes (strToLower s) "integrate" = false →
      strIncludes (strToLower s) "integration" = false →
      strIncludes (strToLower s) "derivative" = false →
      strIncludes (strToLower s) "differentiate" = false →
      strIncludes (strToLower s) "d/dx" = false →
      strIncludes (strToLower s) "matrix" = false →
      strIncludes (strToLower s) "determinant" = false →
      strIncludes (strToLower s) "trig" = false →
      strIncludes (strToLower s) "sin" = false →
      strIncludes (strToLower s) "cos" = false →
      strIncludes (strToLower s) "tan" = false →
      strIncludes (strToLower s) "geometry" = false →
      strIncludes (strToLower s) "area" = false →
      strIncludes (strToLower s) "volume" = false →
      strIncludes (strToLower s) "perimeter" = false →
      strIncludes (strToLower s) "probability" = false →
      strIncludes (strToLower s) "statistics" = false →
      classifyMathQuestion s = "math") := by
  refine ⟨?_, by decide, ?_⟩
  · intro s hd h1 h2 h3
    have hg : mathGate s = true :=
      mathGate_of_keyword s "derivative" (by decide) hd
    unfold classifyMathQuestion subDomainTag
    simp [hg, hd, h1, h2, h3]
  · intro s hi h1 h2 h3 h4 h5 h6 h7 h8 h9 h10 h11 h12 h13 h14 h15 h16 h17 h18
    have hg : mathGate s = true :=
      mathGate_of_keyword s "integral" (by decide) hi
    unfold classifyMathQuestion subDomainTag
    simp [hg, h1, h2, h3, h4, h5, h6, h7, h8, h9, h10, h11, h12, h13, h14,
      h15, h16, h17, h18]

theorem classify_rule_keywords_app :
    classifyMathQuestion "a derivative" = "calculus" ∧
    classifyMathQuestion "the integral" = "math" :=
  ⟨classify_rule_keywords.1 "a derivative" (by decide) (by decide)
      (by decide) (by decide),
   classify_rule_keywords.2.2 "the integral" (by decide) (by decide)
      (by decide) (by decide) (by decide) (by decide) (by decide) (by decide)
      (by decide) (by decide) (by decide) (by decide) (by decide) (by decide)
      (by decide) (by decide) (by decide) (by decide) (by decide)⟩

theorem subDomainTag_eq_firstRuleTag (q : String) :
    subDomainTag q = firstRuleTag q := by
  unfold subDomainTag firstRuleTag priorityRules
  cases h1 : (strIncludes q "∫" || strIncludes q "integrate" ||
      strIncludes q "integration") <;>
  cases h2 : (strIncludes q "derivative" || strIncludes q "differentiate" ||
      strIncludes q "d/dx") <;>
  cases h3 : (strIncludes q "matrix" || strIncludes q "determinant") <;>
  cases h4 : (strIncludes q "trig" || strIncludes q "sin" ||
      strIncludes q "cos" || strIncludes q "tan") <;>
  cases h5 : (strIncludes q "geometry" || strIncludes q "area" ||
      strIncludes q "volume" || strIncludes q "perimeter") <;>
  cases h6 : (strIncludes q "probability" || strIncludes q "statistics") <;>
    simp [List.find?, h1, h2, h3, h4, h5, h6]

/-- C2: for every input that passes the math gate, `classifyMathQuestion`
returns the tag of the first matching rule evaluated in the fixed
priority order integrals, calculus, linear_algebra, trigonometry,
geometry, statistics, math (the spec's ordered (predicate, tag) list);
`classifyMathQuestion "∫ x dx" = "integrals"`, and any input containing
both `"integrate"` and `"derivative"` is tagged `"integrals"`. -/
theorem classify_priority_order :
    (∀ s : String, mathGate s = true →
      classifyMathQuestion s = firstRuleTag (strToLower s)) ∧
    classifyMathQuestion "∫ x dx" = "integrals" ∧
    (∀ s : String,
      strIncludes (strToLower s) "integrate" = true →
      strIncludes (strToLower s) "derivative" = true →
      classifyMathQuestion s = "integrals") := by
  refine ⟨?_, by decide, ?_⟩
  · intro s hg
    unfold classifyMathQuestion
    simp only [hg, if_true]
    exact subDomainTag_eq_firstRuleTag (strToLower s)
  · intro s hi hd
    have hg : mathGate s = true :=
      mathGate_of_keyword s "derivative" (by decide) hd
    unfold classifyMathQuestion subDomainTag
    simp [hg, hi]

theorem classify_priority_order_app :
    classifyMathQuestion "∫ x dx" = firstRuleTag (strToLower "∫ x dx") ∧
    classifyMathQuestion "integrate the derivative" = "integrals" :=
  ⟨classify_priority_order.1 "∫ x dx" (by decide),
   classify_priority_order.2.2 "integrate the derivative" (by decide)
      (by decide)⟩

/-- C3: when the `/ask` resolve operation is called with an empty or
missing question (including whitespace-only input), the response has
`success := false` and an error message, and neither classification,
lookup, nor the generation backend runs. -/
theorem ask_empty_input :
    ∀ (q : Option String) (dataset : List ReferenceEntry)
      (backend : Except String String),
      (q = none ∨ ∃ s, q = some s ∧ strTrim s = "") →
      (askHandler q dataset backend).1.body.success = false ∧
      (askHandler q dataset backend).1.body.error ≠ none ∧
      (askHandler q dataset backend).2.classified = false ∧
      (askHandler q dataset backend).2.lookedUp = false ∧
      (askHandler q dataset backend).2.generated = false := by
  rintro q ds bk (rfl | ⟨s, rfl, hs⟩)
  · simp [askHandler]
  · by_cases he : s = ""
    · subst he
      simp [askHandler]
    · simp [askHandler, he, resolveQuery, hs]

theorem ask_empty_input_app :
    (askHandler (some "   ") [] (Except.ok "answer")).1.body.success = false ∧
    (askHandler (some "   ") [] (Except.ok "answer")).1.body.error ≠ none ∧
    (askHandler (some "   ") [] (Except.ok "answer")).2.classified = false ∧
    (askHandler (some "   ") [] (Except.ok "answer")).2.lookedUp = false ∧
    (askHandler (some "   ") [] (Except.ok "answer")).2.generated = false :=
  ask_empty_input (some "   ") [] (Except.ok "answer")
    (Or.inr ⟨"   ", rfl, by decide⟩)

/-- C4: if the generation step invoked by the `/ask` operation fails (for
example a backend timeout surfaced as a `GenerationError` message), the
operation returns a structured response with `success := false` and a
non-empty error field; the model is a total function, so no exception
propagates past the handler boundary. -/
theorem ask_generation_failure :
    ∀ (s : String) (dataset : List ReferenceEntry) (msg : String),
      s ≠ "" →
      strTrim s ≠ "" →
      lookupReference dataset s = none →
      msg ≠ "" →
      (askHandler (some s) dataset (Except.error msg)).1.body.success
          = false ∧
      (∃ m, (askHandler (some s) dataset (Except.error msg)).1.body.error
          = some m ∧ m ≠ "") := by
  intro s ds msg hne htrim hlook hmsg
  constructor
  · simp [askHandler, hne, resolveQuery, htrim, hlook]
  · exact ⟨msg, by simp [askHandler, hne, resolveQuery, htrim, hlook], hmsg⟩

theorem ask_generation_failure_app :
    (askHandler (some "hello") []
        (Except.error "Request timed out")).1.body.success = false ∧
    (∃ m, (askHandler (some "hello") []
        (Except.error "Request timed out")).1.body.error = some m ∧
        m ≠ "") :=
  ask_generation_failure "hello" [] "Request timed out" (by decide)
    (by decide) rfl (by decide)

/-- C7: for every image upload whose OCR extraction succeeds, the context
string handed to the query resolver is the provenance annotation
("extracted from an image") followed by the extracted text verbatim. -/
theorem image_context_provenance :
    ∀ (ocr : OcrResult) (dataset : List ReferenceEntry)
      (backend : Except String String),
      ocr.success = true →
      (askImageHandler ocr dataset backend).2
          = some (imageProvenancePrefix ++ ocr.text) ∧
      strIncludes (imageProvenancePrefix ++ ocr.text) ocr.text = true ∧
      strIncludes imageProvenancePrefix "extracted from an image" = true := by
  intro ocr ds bk h
  refine ⟨?_, strIncludes_append_right _ _, by decide⟩
  simp [askImageHandler, h]

theorem image_context_provenance_app :
    (askImageHandler ⟨true, "2+2", none⟩ [] (Except.ok "4")).2
        = some (imageProvenancePrefix ++ "2+2") ∧
    strIncludes (imageProvenancePrefix ++ "2+2") "2+2" = true ∧
    strIncludes imageProvenancePrefix "extracted from an image" = true :=
  image_context_provenance ⟨true, "2+2", none⟩ [] (Except.ok "4") rfl
